import Mathlib

/-!
Verification model of the birth-registration service in `src/main.py`
(FastAPI + MySQL).  The pydantic model `BirthData` with its field
validators, the `save-data` accept path, the `search` lookup and the
`delete-old-entries` purge are embedded as executable Lean functions;
the MySQL `births` table is modelled as a list of stored records, so a
request handler becomes a function from (request, current time, stored
state) to (new state, HTTP-level result).

Time model: a Python `datetime` at second resolution is a pair of
- the proleptic Gregorian ordinal of its calendar date (Python
  `date.toordinal`, day 1 = 0001-01-01), and
- the number of seconds elapsed within that day (< 86400).
Python's `timedelta.days` is floor division of the total seconds by
86400; for the positive divisor 86400 Lean's `Int` division (`Int.ediv`,
Euclidean) is exactly that floor division.

Character model: Python's `re` with `str` patterns matches Unicode.
`\d` (and `str.isdigit`) is restricted here to the decimal-digit ranges
that can occur alongside the Arabic text this service handles: ASCII
0-9, Arabic-Indic U+0660-U+0669 and extended Arabic-Indic
U+06F0-U+06F9.  `\s` is the exact set Python's `re` accepts for `str`
patterns (bidi classes WS/B/S plus the Zs/Zl/Zp categories).  A `$`
anchor in a Python pattern also matches just before a single trailing
newline; the pattern models below reproduce that.
-/

namespace Births

/-- Python `re` `\d` / `str.isdigit`, restricted to the ASCII and
Arabic decimal-digit blocks (see the header comment). -/
def pyIsDigitChar (c : Char) : Bool :=
  (48 ≤ c.toNat && c.toNat ≤ 57) ||
  (0x660 ≤ c.toNat && c.toNat ≤ 0x669) ||
  (0x6F0 ≤ c.toNat && c.toNat ≤ 0x6F9)

/-- Python `re` `\s` for `str` patterns: tab..carriage-return, the
ASCII separator controls 0x1C-0x1F, space, NEL, NBSP and the Unicode
space/line/paragraph separators. -/
def pyIsSpaceChar (c : Char) : Bool :=
  (9 ≤ c.toNat && c.toNat ≤ 13) ||
  (28 ≤ c.toNat && c.toNat ≤ 31) ||
  c.toNat == 32 || c.toNat == 0x85 || c.toNat == 0xA0 ||
  c.toNat == 0x1680 ||
  (0x2000 ≤ c.toNat && c.toNat ≤ 0x200A) ||
  c.toNat == 0x2028 || c.toNat == 0x2029 ||
  c.toNat == 0x202F || c.toNat == 0x205F || c.toNat == 0x3000

/-- The character class `[؀-ۿ]` of `validate_arabic_name`. -/
def arabicBlockChar (c : Char) : Bool :=
  0x600 ≤ c.toNat && c.toNat ≤ 0x6FF

/-- Numeric value of a decimal-digit character (Python `int` accepts
all Unicode decimal digits). -/
def digitVal (c : Char) : Nat :=
  if 0x660 ≤ c.toNat && c.toNat ≤ 0x669 then c.toNat - 0x660
  else if 0x6F0 ≤ c.toNat && c.toNat ≤ 0x6F9 then c.toNat - 0x6F0
  else c.toNat - 48

def digitsToNat (cs : List Char) : Nat :=
  cs.foldl (fun a c => 10 * a + digitVal c) 0

def allDigits (cs : List Char) : Bool :=
  cs.all pyIsDigitChar

/-- Python `str.isdigit`: nonempty and all decimal digits. -/
def pyIsDigitStr (s : String) : Bool :=
  !s.data.isEmpty && allDigits s.data

/-- Split a character list at every `'-'` (Python `str.split("-")`,
used to model `strptime` with format `%Y-%m-%d`). -/
def splitDashes : List Char → List (List Char)
  | [] => [[]]
  | '-' :: rest => [] :: splitDashes rest
  | c :: rest =>
    match splitDashes rest with
    | [] => [[c]]
    | g :: gs => (c :: g) :: gs

/-- Proleptic Gregorian leap-year rule (Python `calendar.isleap`). -/
def isLeapYear (y : Nat) : Bool :=
  y % 4 == 0 && (y % 100 != 0 || y % 400 == 0)

def daysInMonth (y m : Nat) : Nat :=
  match m with
  | 1 => 31
  | 2 => if isLeapYear y then 29 else 28
  | 3 => 31
  | 4 => 30
  | 5 => 31
  | 6 => 30
  | 7 => 31
  | 8 => 31
  | 9 => 30
  | 10 => 31
  | 11 => 30
  | 12 => 31
  | _ => 0

/-- Days in the months strictly before month `m` of year `y`. -/
def daysBeforeMonth (y m : Nat) : Nat :=
  (List.range (m - 1)).foldl (fun a i => a + daysInMonth y (i + 1)) 0

/-- A calendar date as produced by `datetime.strptime(v, "%Y-%m-%d")`. -/
structure PyDate where
  year : Nat
  month : Nat
  day : Nat
  deriving DecidableEq

/-- Python `date.toordinal`: 0001-01-01 is day 1. -/
def toOrdinal (d : PyDate) : Nat :=
  365 * (d.year - 1) + (d.year - 1) / 4 - (d.year - 1) / 100 + (d.year - 1) / 400 +
    daysBeforeMonth d.year d.month + d.day

/-- `datetime.strptime(s, "%Y-%m-%d")`, including the constructor's
range checks: the year is exactly 4 digits and at least 1 (MINYEAR),
month and day are 1-2 digits, the month is 1..12 and the day fits the
month; anything else (wrong shape, unconverted trailing data, value
out of range) raises `ValueError`. -/
def parseDate (s : String) : Option PyDate :=
  match splitDashes s.data with
  | [ys, ms, ds] =>
    if ys.length == 4 && allDigits ys &&
       1 ≤ ms.length && ms.length ≤ 2 && allDigits ms &&
       1 ≤ ds.length && ds.length ≤ 2 && allDigits ds then
      let y := digitsToNat ys
      let m := digitsToNat ms
      let d := digitsToNat ds
      if 1 ≤ y && 1 ≤ m && m ≤ 12 && 1 ≤ d && d ≤ daysInMonth y m then
        some ⟨y, m, d⟩
      else none
    else none
  | _ => none

/-- `timedelta.days` of a timedelta of `x` total seconds: floor
division by 86400 (Euclidean division coincides with floor here
because the divisor is positive). -/
def tdDays (x : Int) : Int :=
  x / 86400

/-- `re.match(r'^\d{lo,hi}$', s)` as a Boolean: either the whole
string is `lo..hi` digits, or all but a single trailing newline is
(`$` also matches before a final newline). -/
def matchDigitsPattern (lo hi : Nat) (s : String) : Bool :=
  (lo ≤ s.data.length && s.data.length ≤ hi && allDigits s.data) ||
  (lo + 1 ≤ s.data.length && s.data.length ≤ hi + 1 &&
     s.data.getLast? == some '\n' && allDigits s.data.dropLast)

/-- The exact shape `\d\d\d\d-\d\d-\d\d`. -/
def dateShape (cs : List Char) : Bool :=
  match cs with
  | [a, b, c, d, e, f, g, h, i, j] =>
    pyIsDigitChar a && pyIsDigitChar b && pyIsDigitChar c && pyIsDigitChar d &&
    e == '-' && pyIsDigitChar f && pyIsDigitChar g && h == '-' &&
    pyIsDigitChar i && pyIsDigitChar j
  | _ => false

/-- `re.match` of the `birth_date` field pattern (`$` newline quirk
included). -/
def matchDatePattern (s : String) : Bool :=
  dateShape s.data ||
  (s.data.getLast? == some '\n' && dateShape s.data.dropLast)

/-- `re.match(r'^[؀-ۿ\s]{2,100}$', s)` as a Boolean. -/
def matchArabicNamePattern (s : String) : Bool :=
  (2 ≤ s.data.length && s.data.length ≤ 100 &&
     s.data.all (fun c => arabicBlockChar c || pyIsSpaceChar c)) ||
  (3 ≤ s.data.length && s.data.length ≤ 101 &&
     s.data.getLast? == some '\n' &&
     s.data.dropLast.all (fun c => arabicBlockChar c || pyIsSpaceChar c))

/-- The `values` dict a pydantic validator receives: the fields
validated so far, in declaration order (`values.get(key)`). -/
def valuesGet (vs : List (String × String)) (k : String) : Option String :=
  match vs with
  | [] => none
  | (a, b) :: rest => if a == k then some b else valuesGet rest k

def validate_father_id (v : String) (values : List (String × String)) :
    Except String String :=
  if !pyIsDigitStr v then
    .error "يجب أن يحتوي رقم الهوية على أرقام فقط"
  else if valuesGet values "father_id_type" == some "موحدة" && v.data.length != 12 then
    .error "رقم الموحدة للأب يجب أن يكون 12 رقم"
  else if valuesGet values "father_id_type" == some "هوية_احوال" && v.data.length != 8 then
    .error "رقم هوية الأحوال للأب يجب أن يكون 8 أرقام"
  else .ok v

def validate_mother_id (v : String) (values : List (String × String)) :
    Except String String :=
  if !pyIsDigitStr v then
    .error "يجب أن يحتوي رقم الهوية على أرقام فقط"
  else if valuesGet values "mother_id_type" == some "موحدة" && v.data.length != 12 then
    .error "رقم الموحدة للأم يجب أن يكون 12 رقم"
  else if valuesGet values "mother_id_type" == some "هوية_احوال" && v.data.length != 8 then
    .error "رقم هوية الأحوال للأم يجب أن يكون 8 أرقام"
  else .ok v

def validate_arabic_name (v : String) : Except String String :=
  if !matchArabicNamePattern v then
    .error "يجب أن يحتوي الاسم على حروف عربية فقط"
  else .ok v

/-- `validate_birth_date` with the submission instant `now` given as
(date ordinal, seconds within the day).  The parsed date is a midnight
`datetime`, so "in the future" compares `ordinal*86400` against
`nowOrd*86400 + nowSecs`; staleness uses `timedelta.days`. -/
def validate_birth_date (v : String) (nowOrd nowSecs : Nat) :
    Except String String :=
  match parseDate v with
  | none => .error "time data does not match format %Y-%m-%d"
  | some d =>
    if (toOrdinal d : Int) * 86400 > (nowOrd : Int) * 86400 + nowSecs then
      .error "لا يمكن أن يكون تاريخ الميلاد في المستقبل"
    else if d.year < 1900 then
      .error "تاريخ الميلاد غير صالح"
    else if 45 < tdDays (((nowOrd : Int) * 86400 + nowSecs) - (toOrdinal d : Int) * 86400) then
      .error "لا يمكن تسجيل مواليد بعد 45 يوم من الولادة"
    else .ok v

def validate_id_type (v : String) : Except String String :=
  if v == "موحدة" || v == "هوية_احوال" then .ok v
  else .error "نوع الهوية يجب أن يكون أحد القيم التالية: موحدة, هوية_احوال"

/-- Field-level constraint `Field(pattern=r'^\d{8,12}$')` of the two
id fields. -/
def idFieldPattern (v : String) : Except String String :=
  if matchDigitsPattern 8 12 v then .ok v
  else .error "String should match pattern for id"

/-- Field-level constraint `Field(pattern=r"^\d{4}-\d{2}-\d{2}$")` of
`birth_date`. -/
def dateFieldPattern (v : String) : Except String String :=
  if matchDatePattern v then .ok v
  else .error "String should match pattern for date"

/-- Field-level `min_length=2, max_length=100` followed by the
`validate_arabic_name` validator (applied to `father_full_name`,
`mother_name` and `hospital_name`). -/
def nameFieldCheck (v : String) : Except String String :=
  if v.data.length < 2 then .error "String should have at least 2 characters"
  else if 100 < v.data.length then .error "String should have at most 100 characters"
  else validate_arabic_name v

/-- The raw request payload for `POST /save-data/`. -/
structure RawBirth where
  father_id : String
  father_id_type : String
  father_full_name : String
  mother_id : String
  mother_id_type : String
  mother_name : String
  hospital_name : String
  birth_date : String
  deriving DecidableEq

/-- A payload that passed the pydantic `BirthData` model. -/
structure BirthData where
  father_id : String
  father_id_type : String
  father_full_name : String
  mother_id : String
  mother_id_type : String
  mother_name : String
  hospital_name : String
  birth_date : String
  deriving DecidableEq

/-- Pydantic validation of the `BirthData` model.  Fields are
processed in declaration order; each validator receives in `values`
only the fields already validated, so `validate_father_id` runs with
an empty `values` (it cannot see `father_id_type`, declared after it)
and `validate_mother_id` runs without `mother_id_type`. -/
def validateBirthData (raw : RawBirth) (nowOrd nowSecs : Nat) :
    Except String BirthData :=
  match idFieldPattern raw.father_id with
  | .error e => .error e
  | .ok fid0 =>
  match validate_father_id fid0 [] with
  | .error e => .error e
  | .ok fid =>
  match validate_id_type raw.father_id_type with
  | .error e => .error e
  | .ok fidt =>
  match nameFieldCheck raw.father_full_name with
  | .error e => .error e
  | .ok fname =>
  match idFieldPattern raw.mother_id with
  | .error e => .error e
  | .ok mid0 =>
  match validate_mother_id mid0
      [("father_id", fid), ("father_id_type", fidt), ("father_full_name", fname)] with
  | .error e => .error e
  | .ok mid =>
  match validate_id_type raw.mother_id_type with
  | .error e => .error e
  | .ok midt =>
  match nameFieldCheck raw.mother_name with
  | .error e => .error e
  | .ok mname =>
  match nameFieldCheck raw.hospital_name with
  | .error e => .error e
  | .ok hosp =>
  match dateFieldPattern raw.birth_date with
  | .error e => .error e
  | .ok bd0 =>
  match validate_birth_date bd0 nowOrd nowSecs with
  | .error e => .error e
  | .ok bd =>
    .ok ⟨fid, fidt, fname, mid, midt, mname, hosp, bd⟩

/-- A row of the `births` table.  `birth_date` is a `DATE` column;
`created_at` is the server-assigned insert timestamp in seconds
(`ordinal * 86400 + seconds-in-day`). -/
structure StoredRecord where
  father_id : String
  father_id_type : String
  father_full_name : String
  mother_id : String
  mother_id_type : String
  mother_name : String
  hospital_name : String
  birth_date : PyDate
  created_at : Nat
  deriving DecidableEq

/-- An `HTTPException`: status code and detail message. -/
structure HErr where
  status : Nat
  detail : String
  deriving DecidableEq

def duplicateDetail : String := "تم إدخال هذه البيانات مسبقاً."

def savedDetail : String := "تم حفظ البيانات بنجاح"

def notFoundDetail : String := "لم يتم العثور على نتائج"

/-- The row the INSERT of `save_data` appends to the `births` table:
the validated fields, the parsed birth date and the server-assigned
`created_at` timestamp. -/
def mkStored (d : BirthData) (bd : PyDate) (nowOrd nowSecs : Nat) : StoredRecord :=
  { father_id := d.father_id, father_id_type := d.father_id_type,
    father_full_name := d.father_full_name, mother_id := d.mother_id,
    mother_id_type := d.mother_id_type, mother_name := d.mother_name,
    hospital_name := d.hospital_name, birth_date := bd,
    created_at := nowOrd * 86400 + nowSecs }

/-- The duplicate-check SELECT of `save_data`:
`SELECT hospital_name FROM births WHERE father_id = %s AND mother_id = %s`. -/
def findByParents (f m : String) (st : List StoredRecord) : Option String :=
  (st.find? (fun r => r.father_id == f && r.mother_id == m)).map
    (fun r => r.hospital_name)

/-- The body of `POST /save-data/` after pydantic validation: re-parse
the birth date (a parse failure would escape as an uncaught exception,
i.e. a 500), re-check the 45-day staleness rule, then inside one
transaction check for an existing record with the same ordered
`(father_id, mother_id)` and either reject (rollback leaves the table
unchanged) or insert.  Returns the table after the request plus the
HTTP-level outcome. -/
def save_data (d : BirthData) (nowOrd nowSecs : Nat) (st : List StoredRecord) :
    List StoredRecord × Except HErr String :=
  match parseDate d.birth_date with
  | none => (st, .error ⟨500, "Internal Server Error"⟩)
  | some bd =>
    if 45 < tdDays (((nowOrd : Int) * 86400 + nowSecs) - (toOrdinal bd : Int) * 86400) then
      (st, .error ⟨400, "لا يمكن تسجيل مواليد بعد 45 يوم من الولادة"⟩)
    else
      match findByParents d.father_id d.mother_id st with
      | some _hosp => (st, .error ⟨400, duplicateDetail⟩)
      | none =>
        (st ++ [mkStored d bd nowOrd nowSecs], .ok savedDetail)

/-- The full `POST /save-data/` request: pydantic validation (a
failure is FastAPI's 422 with the validator's message), then
`save_data`. -/
def handleSave (raw : RawBirth) (nowOrd nowSecs : Nat) (st : List StoredRecord) :
    List StoredRecord × Except HErr String :=
  match validateBirthData raw nowOrd nowSecs with
  | .error e => (st, .error ⟨422, e⟩)
  | .ok d => save_data d nowOrd nowSecs st

/-- A row of the `GET /search/{id}` response: the SELECT projects
exactly these six columns and neither parent id. -/
structure SearchResult where
  mother_name : String
  father_full_name : String
  hospital_name : String
  birth_date : PyDate
  father_id_type : String
  mother_id_type : String
  deriving DecidableEq

def projectRecord (r : StoredRecord) : SearchResult :=
  ⟨r.mother_name, r.father_full_name, r.hospital_name, r.birth_date,
   r.father_id_type, r.mother_id_type⟩

/-- `WHERE father_id = %s OR mother_id = %s`. -/
def matchesSearch (sid : String) (r : StoredRecord) : Bool :=
  r.father_id == sid || r.mother_id == sid

/-- `GET /search/{search_id}`: all rows matching either parent id,
404 when there are none. -/
def search_data (sid : String) (st : List StoredRecord) :
    Except HErr (List SearchResult) :=
  if (st.filter (matchesSearch sid)).isEmpty then .error ⟨404, notFoundDetail⟩
  else .ok ((st.filter (matchesSearch sid)).map projectRecord)

/-- `DELETE /delete-old-entries/`: `cutoff_date` is the calendar date
of `now - 45 days`; the SQL `DELETE FROM births WHERE birth_date < cutoff`
keeps exactly the rows whose birth date is not strictly earlier. -/
def delete_old_entries (st : List StoredRecord) (nowOrd nowSecs : Nat) :
    List StoredRecord :=
  st.filter (fun r => decide (¬ ((toOrdinal r.birth_date : Int) <
    tdDays (((nowOrd : Int) * 86400 + nowSecs) - 45 * 86400))))

/-- Database states reachable through the service's mutating
endpoints, starting from the empty table created by `init_db`. -/
inductive Reachable : List StoredRecord → Prop
  | nil : Reachable []
  | save (raw : RawBirth) (nowOrd nowSecs : Nat) {st : List StoredRecord} :
      Reachable st → Reachable (handleSave raw nowOrd nowSecs st).1
  | purge (nowOrd nowSecs : Nat) {st : List StoredRecord} :
      Reachable st → Reachable (delete_old_entries st nowOrd nowSecs)

/-- `needle` is an initial segment of `hay`. -/
def isPrefixChars : List Char → List Char → Bool
  | [], _ => true
  | _ :: _, [] => false
  | a :: as, b :: bs => a == b && isPrefixChars as bs

/-- Whether `needle` occurs contiguously inside `hay`; used to state
formally whether an error message surfaces a given field value. -/
def containsSub (needle hay : List Char) : Bool :=
  isPrefixChars needle hay ||
    match hay with
    | [] => false
    | _ :: t => containsSub needle t

/-- The spec's rejection condition for the birth date, stated from its
words: the string is malformed as a calendar date, or the date is in
the future of the submission day, or its year is before 1900, or it is
more than 45 days before the submission day. -/
def specBirthDateRejected (v : String) (nowOrd : Nat) : Prop :=
  parseDate v = none ∨
    ∃ d, parseDate v = some d ∧
      (nowOrd < toOrdinal d ∨ d.year < 1900 ∨ 45 < nowOrd - toOrdinal d)

/-! Concrete sample data used by witnesses and counterexamples.
`738946` is `date(2024, 3, 1).toordinal()`, the "now" of the samples;
the sample birth date 2024-02-20 is 10 days earlier. -/

def nowOrd0 : Nat := toOrdinal ⟨2024, 3, 1⟩

def rawFirst : RawBirth :=
  { father_id := "123456789012", father_id_type := "موحدة",
    father_full_name := "محمد علي", mother_id := "210987654321",
    mother_id_type := "موحدة", mother_name := "فاطمة",
    hospital_name := "مستشفى", birth_date := "2024-02-20" }

/-- `rawFirst` with the two parent ids exchanged. -/
def rawSwapped : RawBirth :=
  { rawFirst with father_id := "210987654321", mother_id := "123456789012" }

/-- An 8-digit `father_id` declared with the 12-digit id-type. -/
def rawC4 : RawBirth :=
  { rawFirst with father_id := "12345678" }

/-- A payload whose `father_id_type` is neither enumerated label. -/
def rawBadType : RawBirth :=
  { rawFirst with father_id_type := "جواز" }

/-- The validated form of `rawFirst`. -/
def dupData : BirthData :=
  ⟨"123456789012", "موحدة", "محمد علي", "210987654321", "موحدة",
   "فاطمة", "مستشفى", "2024-02-20"⟩

/-- The row `rawFirst` inserts at time `nowOrd0`. -/
def storedFirst : StoredRecord :=
  { father_id := "123456789012", father_id_type := "موحدة",
    father_full_name := "محمد علي", mother_id := "210987654321",
    mother_id_type := "موحدة", mother_name := "فاطمة",
    hospital_name := "مستشفى", birth_date := ⟨2024, 2, 20⟩,
    created_at := 738946 * 86400 }

def recHosp1 : StoredRecord := { storedFirst with hospital_name := "بببب" }

def recHosp2 : StoredRecord := { storedFirst with hospital_name := "تتتت" }

/-- A row created 10 days before `nowOrd0` whose birth date is 46 days
before `nowOrd0` (2024-01-15). -/
def recC3 : StoredRecord :=
  { storedFirst with
    birth_date := ⟨2024, 1, 15⟩,
    created_at := toOrdinal ⟨2024, 2, 20⟩ * 86400 }

/-! Helper lemmas: every validator error message is nonempty. -/

theorem idFieldPattern_error_ne {v e : String}
    (h : idFieldPattern v = .error e) : e ≠ "" := by
  unfold idFieldPattern at h
  split at h
  · exact absurd h (by simp)
  · injection h with hh
    subst hh
    decide

theorem validate_father_id_error_ne {v : String} {vs : List (String × String)}
    {e : String} (h : validate_father_id v vs = .error e) : e ≠ "" := by
  unfold validate_father_id at h
  repeat' split at h
  all_goals first
    | (injection h with hh; subst hh; decide)
    | exact absurd h (by simp)

theorem validate_mother_id_error_ne {v : String} {vs : List (String × String)}
    {e : String} (h : validate_mother_id v vs = .error e) : e ≠ "" := by
  unfold validate_mother_id at h
  repeat' split at h
  all_goals first
    | (injection h with hh; subst hh; decide)
    | exact absurd h (by simp)

theorem validate_id_type_error_ne {v e : String}
    (h : validate_id_type v = .error e) : e ≠ "" := by
  unfold validate_id_type at h
  split at h
  · exact absurd h (by simp)
  · injection h with hh
    subst hh
    decide

theorem validate_arabic_name_error_ne {v e : String}
    (h : validate_arabic_name v = .error e) : e ≠ "" := by
  unfold validate_arabic_name at h
  split at h
  · injection h with hh
    subst hh
    decide
  · exact absurd h (by simp)

theorem nameFieldCheck_error_ne {v e : String}
    (h : nameFieldCheck v = .error e) : e ≠ "" := by
  unfold nameFieldCheck at h
  repeat' split at h
  all_goals first
    | (injection h with hh; subst hh; decide)
    | exact validate_arabic_name_error_ne h
    | exact absurd h (by simp)

theorem dateFieldPattern_error_ne {v e : String}
    (h : dateFieldPattern v = .error e) : e ≠ "" := by
  unfold dateFieldPattern at h
  split at h
  · exact absurd h (by simp)
  · injection h with hh
    subst hh
    decide

theorem validate_birth_date_error_ne {v : String} {a b : Nat} {e : String}
    (h : validate_birth_date v a b = .error e) : e ≠ "" := by
  unfold validate_birth_date at h
  repeat' split at h
  all_goals first
    | (injection h with hh; subst hh; decide)
    | exact absurd h (by simp)

theorem validateBirthData_error_ne {raw : RawBirth} {a b : Nat} {e : String}
    (h : validateBirthData raw a b = .error e) : e ≠ "" := by
  unfold validateBirthData at h
  cases h1 : idFieldPattern raw.father_id with
  | error e1 =>
    simp only [h1] at h
    injection h with hh
    subst hh
    exact idFieldPattern_error_ne h1
  | ok fid0 =>
  simp only [h1] at h
  cases h2 : validate_father_id fid0 [] with
  | error e2 =>
    simp only [h2] at h
    injection h with hh
    subst hh
    exact validate_father_id_error_ne h2
  | ok fid =>
  simp only [h2] at h
  cases h3 : validate_id_type raw.father_id_type with
  | error e3 =>
    simp only [h3] at h
    injection h with hh
    subst hh
    exact validate_id_type_error_ne h3
  | ok fidt =>
  simp only [h3] at h
  cases h4 : nameFieldCheck raw.father_full_name with
  | error e4 =>
    simp only [h4] at h
    injection h with hh
    subst hh
    exact nameFieldCheck_error_ne h4
  | ok fname =>
  simp only [h4] at h
  cases h5 : idFieldPattern raw.mother_id with
  | error e5 =>
    simp only [h5] at h
    injection h with hh
    subst hh
    exact idFieldPattern_error_ne h5
  | ok mid0 =>
  simp only [h5] at h
  cases h6 : validate_mother_id mid0
      [("father_id", fid), ("father_id_type", fidt), ("father_full_name", fname)] with
  | error e6 =>
    simp only [h6] at h
    injection h with hh
    subst hh
    exact validate_mother_id_error_ne h6
  | ok mid =>
  simp only [h6] at h
  cases h7 : validate_id_type raw.mother_id_type with
  | error e7 =>
    simp only [h7] at h
    injection h with hh
    subst hh
    exact validate_id_type_error_ne h7
  | ok midt =>
  simp only [h7] at h
  cases h8 : nameFieldCheck raw.mother_name with
  | error e8 =>
    simp only [h8] at h
    injection h with hh
    subst hh
    exact nameFieldCheck_error_ne h8
  | ok mname =>
  simp only [h8] at h
  cases h9 : nameFieldCheck raw.hospital_name with
  | error e9 =>
    simp only [h9] at h
    injection h with hh
    subst hh
    exact nameFieldCheck_error_ne h9
  | ok hosp =>
  simp only [h9] at h
  cases h10 : dateFieldPattern raw.birth_date with
  | error e10 =>
    simp only [h10] at h
    injection h with hh
    subst hh
    exact dateFieldPattern_error_ne h10
  | ok bd0 =>
  simp only [h10] at h
  cases h11 : validate_birth_date bd0 a b with
  | error e11 =>
    simp only [h11] at h
    injection h with hh
    subst hh
    exact validate_birth_date_error_ne h11
  | ok bd =>
    simp only [h11] at h
    exact absurd h (by simp)

/-- If every element of `cs.dropLast` satisfies `p` and the last
element satisfies `p`, every element of `cs` satisfies `p`. -/
theorem all_of_dropLast_getLast {α : Type} {p : α → Bool} {cs : List α} {c : α}
    (hl : cs.getLast? = some c) (hd : ∀ a ∈ cs.dropLast, p a = true)
    (hc : p c = true) : ∀ a ∈ cs, p a = true := by
  induction cs with
  | nil => simp at hl
  | cons x xs ih =>
    cases xs with
    | nil =>
      simp only [List.getLast?_singleton, Option.some.injEq] at hl
      subst hl
      intro a ha
      simp only [List.mem_singleton] at ha
      subst ha
      exact hc
    | cons y ys =>
      have hl2 : (y :: ys).getLast? = some c := by
        simpa [List.getLast?_cons_cons] using hl
      have hd2 : ∀ a ∈ (y :: ys).dropLast, p a = true := by
        intro a ha
        exact hd a (by simp [List.dropLast, ha])
      have hx : p x = true := by
        apply hd
        simp [List.dropLast]
      intro a ha
      rcases List.mem_cons.mp ha with rfl | ha2
      · exact hx
      · exact ih hl2 hd2 a ha2

/-- A name-pattern match of a string of at most 100 characters means
every character is in the accepted class (the `$`-before-newline case
folds in because the newline itself is in the class). -/
theorem matchArabicNamePattern_true_of {s : String}
    (hm : matchArabicNamePattern s = true) (hle : s.data.length ≤ 100) :
    2 ≤ s.data.length ∧
      ∀ c ∈ s.data, (arabicBlockChar c || pyIsSpaceChar c) = true := by
  unfold matchArabicNamePattern at hm
  rcases Bool.or_eq_true_iff.mp hm with h1 | h2
  · simp only [Bool.and_eq_true, decide_eq_true_eq, List.all_eq_true] at h1
    exact ⟨h1.1.1, h1.2⟩
  · simp only [Bool.and_eq_true, decide_eq_true_eq, List.all_eq_true,
      beq_iff_eq] at h2
    exact ⟨by omega, all_of_dropLast_getLast h2.1.2 h2.2 (by decide)⟩

theorem matchArabicNamePattern_of_all {s : String} (h2 : 2 ≤ s.data.length)
    (h100 : s.data.length ≤ 100)
    (hall : ∀ c ∈ s.data, (arabicBlockChar c || pyIsSpaceChar c) = true) :
    matchArabicNamePattern s = true := by
  unfold matchArabicNamePattern
  refine Bool.or_eq_true_iff.mpr (Or.inl ?_)
  simp only [Bool.and_eq_true, decide_eq_true_eq, List.all_eq_true]
  exact ⟨⟨h2, h100⟩, hall⟩

/-! The claims. -/

/-- C9: any string of 2 to 100 whitespace characters passes the
name/hospital field validator, because the accepted character class is
the Arabic block plus arbitrary whitespace. -/
theorem whitespace_only_name_accepted (s : String)
    (h2 : 2 ≤ s.data.length) (h100 : s.data.length ≤ 100)
    (hsp : ∀ c ∈ s.data, pyIsSpaceChar c = true) :
    nameFieldCheck s = .ok s := by
  unfold nameFieldCheck validate_arabic_name
  rw [if_neg (by omega), if_neg (by omega)]
  rw [matchArabicNamePattern_of_all h2 h100 (fun c hc => by simp [hsp c hc])]
  simp

/-- Witness for C9 at the two-space string. -/
theorem whitespace_only_name_accepted_witness :
    nameFieldCheck "  " = .ok "  " :=
  whitespace_only_name_accepted "  " (by decide) (by decide) (by decide)

/-- C6 (amended): a name/hospital field is accepted iff its length is
2..100 and every character lies in the Arabic Unicode block
U+0600-U+06FF or is whitespace.  That block contains the Arabic-Indic
digits and Arabic punctuation, so such characters are accepted, while
ASCII digits, ASCII punctuation and foreign-script letters are
rejected. -/
theorem name_field_characterization (s : String) :
    nameFieldCheck s = .ok s ↔
      (2 ≤ s.data.length ∧ s.data.length ≤ 100 ∧
        ∀ c ∈ s.data, (arabicBlockChar c || pyIsSpaceChar c) = true) := by
  unfold nameFieldCheck validate_arabic_name
  split
  · rename_i hlt
    constructor
    · intro h
      exact absurd h (by simp)
    · intro ⟨ha, _, _⟩
      omega
  · rename_i hlt
    split
    · rename_i hgt
      constructor
      · intro h
        exact absurd h (by simp)
      · intro ⟨_, ha, _⟩
        omega
    · rename_i hgt
      split
      · rename_i hm
        rw [Bool.not_eq_true'] at hm
        refine iff_of_false (by simp) ?_
        intro ⟨ha, hb, hc⟩
        rw [matchArabicNamePattern_of_all ha hb hc] at hm
        exact absurd hm (by decide)
      · rename_i hm
        have hm2 : matchArabicNamePattern s = true := by
          cases hb : matchArabicNamePattern s
          · rw [hb] at hm
            exact absurd rfl hm
          · rfl
        have := matchArabicNamePattern_true_of hm2 (by omega)
        exact iff_of_true rfl ⟨this.1, by omega, this.2⟩

/-- C6 counterexample: the two-character string of Arabic-Indic zero
digits is accepted by the name validator although every character is a
digit, contradicting "any field containing a digit is rejected". -/
theorem name_digit_counterexample :
    nameFieldCheck "٠٠" = .ok "٠٠" ∧ ∀ c ∈ "٠٠".data, pyIsDigitChar c = true :=
  ⟨rfl, by decide⟩

/-- A record that passes full validation has, in particular, an
accepted `father_id_type`. -/
theorem validateBirthData_ok_father_type {raw : RawBirth} {a b : Nat}
    {d : BirthData} (h : validateBirthData raw a b = .ok d) :
    ∃ r, validate_id_type raw.father_id_type = .ok r := by
  unfold validateBirthData at h
  cases h1 : idFieldPattern raw.father_id with
  | error e1 =>
    simp only [h1] at h
    exact absurd h (by simp)
  | ok fid0 =>
    simp only [h1] at h
    cases h2 : validate_father_id fid0 [] with
    | error e2 =>
      simp only [h2] at h
      exact absurd h (by simp)
    | ok fid =>
      simp only [h2] at h
      cases h3 : validate_id_type raw.father_id_type with
      | error e3 =>
        simp only [h3] at h
        exact absurd h (by simp)
      | ok fidt => exact ⟨fidt, rfl⟩

/-- C8: an id-type value is accepted by `validate_id_type` exactly
when it is one of the two enumerated labels, and a record whose
`father_id_type` is any other value fails validation. -/
theorem id_type_two_labels :
    (∀ v : String,
        (∃ r, validate_id_type v = .ok r) ↔ (v = "موحدة" ∨ v = "هوية_احوال"))
    ∧ (∀ (raw : RawBirth) (nowOrd nowSecs : Nat),
        raw.father_id_type ≠ "موحدة" → raw.father_id_type ≠ "هوية_احوال" →
        ∃ e, validateBirthData raw nowOrd nowSecs = .error e) := by
  constructor
  · intro v
    unfold validate_id_type
    split
    · rename_i hcond
      simp only [Bool.or_eq_true, beq_iff_eq] at hcond
      exact iff_of_true ⟨v, rfl⟩ hcond
    · rename_i hcond
      simp only [Bool.or_eq_true, beq_iff_eq] at hcond
      refine iff_of_false ?_ hcond
      intro ⟨r, hr⟩
      exact absurd hr (by simp)
  · intro raw nowOrd nowSecs h1 h2
    cases hv : validateBirthData raw nowOrd nowSecs with
    | error e => exact ⟨e, rfl⟩
    | ok d =>
      obtain ⟨r, hr⟩ := validateBirthData_ok_father_type hv
      unfold validate_id_type at hr
      rw [if_neg (by simp [h1, h2])] at hr
      exact absurd hr (by simp)

/-- Witness for C8 at a concrete rejected id-type. -/
theorem id_type_two_labels_witness :
    ∃ e, validateBirthData rawBadType nowOrd0 0 = .error e :=
  id_type_two_labels.2 rawBadType nowOrd0 0 (by decide) (by decide)

/-- The record `rawC4` would produce after validation. -/
def validC4 : BirthData :=
  ⟨"12345678", "موحدة", "محمد علي", "210987654321", "موحدة",
   "فاطمة", "مستشفى", "2024-02-20"⟩

/-- C4 (code bug): the pydantic validator for `father_id` runs before
`father_id_type` has been validated, so `values.get('father_id_type')`
is `None` and both length branches are skipped: an 8-digit `father_id`
declared with the 12-digit id-type `موحدة` passes the whole model
validation, although the validator's own error messages document that
it must be rejected. -/
theorem father_id_length_not_enforced :
    validateBirthData rawC4 nowOrd0 0 = .ok validC4 ∧
    rawC4.father_id.data.length = 8 ∧ rawC4.father_id_type = "موحدة" :=
  ⟨rfl, rfl, rfl⟩

/-- C5: birth-date validation fails exactly when the string does not
parse as a calendar date, or the date is in the future of the
submission day, or its year is before 1900, or it lies more than 45
days before the submission day. -/
theorem birth_date_validation_iff (v : String) (nowOrd nowSecs : Nat)
    (h : nowSecs < 86400) :
    (∃ e, validate_birth_date v nowOrd nowSecs = .error e) ↔
      specBirthDateRejected v nowOrd := by
  unfold validate_birth_date specBirthDateRejected tdDays
  cases hp : parseDate v with
  | none => exact iff_of_true ⟨_, rfl⟩ (Or.inl rfl)
  | some d =>
    simp only [Option.some.injEq, reduceCtorEq, false_or, exists_eq_left']
    split
    · exact iff_of_true ⟨_, rfl⟩ (by omega)
    · split
      · exact iff_of_true ⟨_, rfl⟩ (by omega)
      · split
        · exact iff_of_true ⟨_, rfl⟩ (by omega)
        · refine iff_of_false (by simp) (by omega)

/-- Witness for C5: a birth date 46 days before the sample "now" is
rejected (the 46-days-stale boundary of the claim). -/
theorem birth_date_validation_iff_witness :
    ∃ e, validate_birth_date "2024-01-15" 738946 0 = .error e :=
  (birth_date_validation_iff "2024-01-15" 738946 0 (by decide)).mpr
    (Or.inr ⟨⟨2024, 1, 15⟩, by decide⟩)

/-- Exhaustive outcome analysis of one `POST /save-data/` request:
either some check fails, the table is unchanged and the error carries
a nonempty message, or the validated record is appended and the
handler reports success. -/
theorem handleSave_cases (raw : RawBirth) (nowOrd nowSecs : Nat)
    (st : List StoredRecord) :
    (∃ e, handleSave raw nowOrd nowSecs st = (st, Except.error e) ∧
      e.detail ≠ "")
    ∨ (∃ d bd, validateBirthData raw nowOrd nowSecs = Except.ok d ∧
        parseDate d.birth_date = some bd ∧
        findByParents d.father_id d.mother_id st = none ∧
        handleSave raw nowOrd nowSecs st =
          (st ++ [mkStored d bd nowOrd nowSecs], Except.ok savedDetail)) := by
  cases hv : validateBirthData raw nowOrd nowSecs with
  | error e =>
    refine Or.inl ⟨⟨422, e⟩, ?_, validateBirthData_error_ne hv⟩
    simp only [handleSave, hv]
  | ok d =>
    cases hp : parseDate d.birth_date with
    | none =>
      refine Or.inl ⟨⟨500, "Internal Server Error"⟩, ?_, by decide⟩
      simp only [handleSave, hv, save_data, hp]
    | some bd =>
      by_cases hstale : 45 < tdDays (((nowOrd : Int) * 86400 + nowSecs) -
          (toOrdinal bd : Int) * 86400)
      · refine Or.inl ⟨⟨400, "لا يمكن تسجيل مواليد بعد 45 يوم من الولادة"⟩, ?_, by decide⟩
        simp only [handleSave, hv, save_data, hp, if_pos hstale]
      · cases hfind : findByParents d.father_id d.mother_id st with
        | some hosp =>
          refine Or.inl ⟨⟨400, duplicateDetail⟩, ?_, by decide⟩
          simp only [handleSave, hv, save_data, hp, if_neg hstale, hfind]
        | none =>
          refine Or.inr ⟨d, bd, rfl, hp, hfind, ?_⟩
          simp only [handleSave, hv, save_data, hp, if_neg hstale, hfind]

/-- C3 (amended): the purge endpoint deletes exactly the records whose
birth_date is strictly earlier than the calendar date 45 days before
"now"; created_at is not consulted.  The second conjunct computes the
cutoff: the date part of now minus 45 days. -/
theorem purge_selects_by_birth_date :
    (∀ (st : List StoredRecord) (nowOrd nowSecs : Nat) (r : StoredRecord),
        r ∈ delete_old_entries st nowOrd nowSecs ↔
          r ∈ st ∧ ¬ ((toOrdinal r.birth_date : Int) <
            tdDays (((nowOrd : Int) * 86400 + nowSecs) - 45 * 86400)))
    ∧ (∀ nowOrd nowSecs : Nat, nowSecs < 86400 →
        tdDays (((nowOrd : Int) * 86400 + nowSecs) - 45 * 86400) =
          (nowOrd : Int) - 45) := by
  constructor
  · intro st nowOrd nowSecs r
    unfold delete_old_entries
    simp [List.mem_filter]
  · intro nowOrd nowSecs h
    unfold tdDays
    omega

/-- Witness for C3: the cutoff computation at the sample "now". -/
theorem purge_selects_by_birth_date_witness :
    tdDays (((738946 : Nat) : Int) * 86400 + ((0 : Nat) : Int) - 45 * 86400) =
      ((738946 : Nat) : Int) - 45 :=
  purge_selects_by_birth_date.2 738946 0 (by decide)

/-- C3 counterexample: a record created only 10 days ago (created_at
age well under 45 days) but with a birth date 46 days old is deleted
by the purge, contradicting selection by created_at. -/
theorem purge_created_at_counterexample :
    delete_old_entries [recC3] 738946 0 = [] ∧
    738946 * 86400 + 0 - recC3.created_at = 10 * 86400 :=
  ⟨rfl, rfl⟩

/-- C2 (amended): a submission whose ordered parent pair matches a
stored record is rejected with the fixed message "تم إدخال هذه
البيانات مسبقاً." — the conflicting record's hospital_name is fetched
but does not appear in the user-facing message — and the table is
unchanged. -/
theorem duplicate_error_fixed_message (d : BirthData) (nowOrd nowSecs : Nat)
    (st : List StoredRecord) (r : StoredRecord) (bd : PyDate)
    (hr : r ∈ st) (hf : r.father_id = d.father_id) (hm : r.mother_id = d.mother_id)
    (hp : parseDate d.birth_date = some bd)
    (hs : ¬ 45 < tdDays (((nowOrd : Int) * 86400 + nowSecs) -
      (toOrdinal bd : Int) * 86400)) :
    save_data d nowOrd nowSecs st = (st, Except.error ⟨400, duplicateDetail⟩) := by
  unfold save_data
  simp only [hp]
  rw [if_neg hs]
  cases hfind : findByParents d.father_id d.mother_id st with
  | some hosp => rfl
  | none =>
    exfalso
    unfold findByParents at hfind
    rw [Option.map_eq_none'] at hfind
    apply List.find?_eq_none.mp hfind r hr
    simp [hf, hm]

/-- Witness for C2 at the sample duplicate submission. -/
theorem duplicate_error_fixed_message_witness :
    save_data dupData 738946 0 [storedFirst] =
      ([storedFirst], Except.error ⟨400, duplicateDetail⟩) :=
  duplicate_error_fixed_message dupData 738946 0 [storedFirst] storedFirst
    ⟨2024, 2, 20⟩ (List.mem_singleton.mpr rfl) rfl rfl (by decide) (by decide)

/-- C2 counterexample: two conflicting records with different hospital
names produce the identical fixed duplicate message, and that message
does not contain the stored hospital name — so the error cannot be
surfacing the conflicting record's hospital_name. -/
theorem duplicate_message_counterexample :
    (save_data dupData 738946 0 [recHosp1]).2 =
        Except.error ⟨400, duplicateDetail⟩ ∧
    (save_data dupData 738946 0 [recHosp2]).2 =
        Except.error ⟨400, duplicateDetail⟩ ∧
    recHosp1.hospital_name ≠ recHosp2.hospital_name ∧
    containsSub recHosp1.hospital_name.data duplicateDetail.data = false ∧
    containsSub recHosp2.hospital_name.data duplicateDetail.data = false :=
  ⟨rfl, rfl, by decide, by decide, by decide⟩

/-- C1 (amended): the ordered pair (father_id, mother_id) is unique
across every reachable table state; a submission whose ordered pair
matches a stored record is rejected (whatever its other fields), and
the accept path never removes or overwrites stored rows (the old table
is a prefix of the new one).  The uniqueness is NOT of the unordered
pair: see the counterexample. -/
theorem parent_pair_unique :
    (∀ st : List StoredRecord, Reachable st →
        st.Pairwise (fun a b =>
          ¬ (a.father_id = b.father_id ∧ a.mother_id = b.mother_id)))
    ∧ (∀ (d : BirthData) (nowOrd nowSecs : Nat) (st : List StoredRecord)
        (r : StoredRecord), r ∈ st → r.father_id = d.father_id →
        r.mother_id = d.mother_id →
        ∃ e, save_data d nowOrd nowSecs st = (st, Except.error e))
    ∧ (∀ (raw : RawBirth) (nowOrd nowSecs : Nat) (st : List StoredRecord),
        st <+: (handleSave raw nowOrd nowSecs st).1) := by
  have hdup : ∀ (d : BirthData) (nowOrd nowSecs : Nat) (st : List StoredRecord)
      (r : StoredRecord), r ∈ st → r.father_id = d.father_id →
      r.mother_id = d.mother_id →
      ∃ e, save_data d nowOrd nowSecs st = (st, Except.error e) := by
    intro d nowOrd nowSecs st r hr hf hm
    obtain ⟨hosp, hfind⟩ :
        ∃ hosp, findByParents d.father_id d.mother_id st = some hosp := by
      cases hf2 : findByParents d.father_id d.mother_id st with
      | some h2 => exact ⟨h2, rfl⟩
      | none =>
        exfalso
        unfold findByParents at hf2
        rw [Option.map_eq_none'] at hf2
        apply List.find?_eq_none.mp hf2 r hr
        simp [hf, hm]
    cases hp : parseDate d.birth_date with
    | none =>
      exact ⟨⟨500, "Internal Server Error"⟩, by simp only [save_data, hp]⟩
    | some bd =>
      by_cases hstale : 45 < tdDays (((nowOrd : Int) * 86400 + nowSecs) -
          (toOrdinal bd : Int) * 86400)
      · exact ⟨⟨400, "لا يمكن تسجيل مواليد بعد 45 يوم من الولادة"⟩,
          by simp only [save_data, hp, if_pos hstale]⟩
      · exact ⟨⟨400, duplicateDetail⟩,
          by simp only [save_data, hp, if_neg hstale, hfind]⟩
  refine ⟨?_, hdup, ?_⟩
  · intro st h
    induction h with
    | nil => exact List.Pairwise.nil
    | save raw nowOrd nowSecs hst ih =>
      rcases handleSave_cases raw nowOrd nowSecs _ with
        ⟨e, heq, _⟩ | ⟨d, bd, hv, hp, hfind, heq⟩
      · rw [heq]
        exact ih
      · rw [heq]
        refine List.pairwise_append.mpr ⟨ih, by simp, ?_⟩
        intro a ha b hb
        rw [List.mem_singleton] at hb
        subst hb
        intro hab
        unfold findByParents at hfind
        rw [Option.map_eq_none'] at hfind
        apply List.find?_eq_none.mp hfind a ha
        have h1 : a.father_id = d.father_id := by
          simpa [mkStored] using hab.1
        have h2 : a.mother_id = d.mother_id := by
          simpa [mkStored] using hab.2
        simp [h1, h2]
    | purge nowOrd nowSecs hst ih =>
      exact List.Pairwise.sublist
        (by unfold delete_old_entries; exact List.filter_sublist _) ih
  · intro raw nowOrd nowSecs st
    rcases handleSave_cases raw nowOrd nowSecs st with
      ⟨e, heq, _⟩ | ⟨d, bd, _, _, _, heq⟩
    · rw [heq]
    · rw [heq]
      exact ⟨[mkStored d bd nowOrd nowSecs], rfl⟩

/-- Witness for C1: the sample duplicate submission is rejected with
the table unchanged. -/
theorem parent_pair_unique_witness :
    ∃ e, save_data dupData 738946 0 [storedFirst] =
      ([storedFirst], Except.error e) :=
  parent_pair_unique.2.1 dupData 738946 0 [storedFirst] storedFirst
    (List.mem_singleton.mpr rfl) rfl rfl

/-- C1 counterexample: after storing a record, the submission with
father_id and mother_id exchanged is accepted (the table grows to two
rows and the handler reports success), so the unordered parent pair is
not unique and a swapped resubmission is not rejected. -/
theorem unordered_pair_counterexample :
    (handleSave rawSwapped nowOrd0 0 (handleSave rawFirst nowOrd0 0 []).1).1.length = 2 ∧
    (handleSave rawSwapped nowOrd0 0 (handleSave rawFirst nowOrd0 0 []).1).2 =
      Except.ok savedDetail ∧
    rawSwapped.father_id = rawFirst.mother_id ∧
    rawSwapped.mother_id = rawFirst.father_id ∧
    rawSwapped.father_id ≠ rawSwapped.mother_id :=
  ⟨rfl, rfl, rfl, rfl, by decide⟩

/-- C7: every request to the accept path either leaves the table
exactly as it was and reports an error with a nonempty human-readable
message, or appends exactly one record and reports success — there is
no partial acceptance. -/
theorem save_atomic (raw : RawBirth) (nowOrd nowSecs : Nat)
    (st : List StoredRecord) :
    (∃ e, handleSave raw nowOrd nowSecs st = (st, Except.error e) ∧
      e.detail ≠ "")
    ∨ (∃ rec, handleSave raw nowOrd nowSecs st =
        (st ++ [rec], Except.ok savedDetail)) := by
  rcases handleSave_cases raw nowOrd nowSecs st with
    ⟨e, heq, hne⟩ | ⟨d, bd, _, _, _, heq⟩
  · exact Or.inl ⟨e, heq, hne⟩
  · exact Or.inr ⟨mkStored d bd nowOrd nowSecs, heq⟩

/-- C10: a search returns precisely the projections (six fields, no
parent ids) of the stored records one of whose parent ids equals the
search id, and fails with 404 exactly when no stored record matches. -/
theorem search_by_parent_id (sid : String) (st : List StoredRecord) :
    (∀ rs, search_data sid st = Except.ok rs →
        ∀ res, res ∈ rs ↔ ∃ r, r ∈ st ∧
          (r.father_id = sid ∨ r.mother_id = sid) ∧ res = projectRecord r)
    ∧ (search_data sid st = Except.error ⟨404, notFoundDetail⟩ ↔
        ∀ r ∈ st, r.father_id ≠ sid ∧ r.mother_id ≠ sid) := by
  unfold search_data
  split
  · rename_i hemp
    rw [List.isEmpty_eq_true, List.filter_eq_nil_iff] at hemp
    constructor
    · intro rs hrs
      exact absurd hrs (by simp)
    · refine iff_of_true rfl ?_
      intro r hr
      have hmr := hemp r hr
      simp only [matchesSearch, Bool.or_eq_true, beq_iff_eq] at hmr
      push_neg at hmr
      exact hmr
  · rename_i hemp
    constructor
    · intro rs hrs
      injection hrs with hh
      subst hh
      intro res
      simp only [List.mem_map, List.mem_filter, matchesSearch,
        Bool.or_eq_true, beq_iff_eq]
      constructor
      · rintro ⟨r, ⟨hrs2, hor⟩, rfl⟩
        exact ⟨r, hrs2, hor, rfl⟩
      · rintro ⟨r, hrs2, hor, rfl⟩
        exact ⟨r, ⟨hrs2, hor⟩, rfl⟩
    · refine iff_of_false (by simp) ?_
      intro hall
      apply hemp
      rw [List.isEmpty_eq_true, List.filter_eq_nil_iff]
      intro a ha
      simp only [matchesSearch, Bool.or_eq_true, beq_iff_eq]
      rintro (hcase | hcase)
      · exact (hall a ha).1 hcase
      · exact (hall a ha).2 hcase

/-- Witness for C10: searching the empty table is a 404. -/
theorem search_by_parent_id_witness :
    search_data "99999999" [] = Except.error ⟨404, notFoundDetail⟩ :=
  (search_by_parent_id "99999999" []).2.mpr (by simp)

end Births
